import Mathlib

/-!
Verification development for the `changelog` tool (`src/changelog/__init__.py`).

The Python source is shallowly embedded:
* JSON values are the inductive `Json`;
* the remote GitHub API is a `World`: a pure function from requests to
  responses, so every remote behaviour can be quantified over;
* Python exceptions become the `Err` sum type, and every operation that can
  raise returns `Except Err _`;
* Python `datetime` values are kept as their normalized ISO-8601 strings:
  `parse_datetime_string` replaces "Z" by "+00:00" and then, like the
  source's `datetime.fromisoformat`, fails with a `ValueError` unless the
  normalized string matches the ISO-8601 grammar; on success
  `datetime.isoformat` reproduces the normalized string, so a datetime is
  embedded as that string;
* the unbounded `while` loop in `get_tag` is embedded with explicit fuel; the
  distinguished error `Err.fuel` marks that the loop did not exit within the
  given number of iterations.
-/

namespace Changelog

/-- JSON values, as returned by the remote API. -/
inductive Json where
  | null
  | str (s : String)
  | num (n : Int)
  | arr (xs : List Json)
  | obj (fields : List (String × Json))

/-- The failures the Python code can raise.
`github` is the source's `GitHubError`; `lookup` stands for the unspecified
key-lookup failures (`KeyError` on a missing dict key, `TypeError` when
subscripting a non-dict such as `None`); `typeErr` stands for a value of an
unexpected runtime type reaching an operation that needs a string/int/list;
`index` is `IndexError`; `valueErr` is the `ValueError` that
`datetime.fromisoformat` raises on a non-ISO string; `fuel` is the
out-of-fuel marker of the embedded `while` loop (not a Python exception: it
marks divergence). -/
inductive Err where
  | github (msg : String)
  | lookup (key : String)
  | typeErr
  | index
  | valueErr
  | fuel
  deriving DecidableEq

/-- Python `d[k]` on a JSON value: a value for the key when `d` is an object
holding it, a key-lookup error otherwise (KeyError on a dict, TypeError on
any non-dict, e.g. `None[k]`). -/
def Json.get : Json → String → Except Err Json
  | .obj fs, k =>
    match fs.find? (fun p => p.1 == k) with
    | some p => .ok p.2
    | none => .error (.lookup k)
  | _, k => .error (.lookup k)

/-- Python `k in d` for a JSON value: key membership for a dict, element
membership for a list, otherwise a runtime type error. -/
def Json.hasKey : Json → String → Except Err Bool
  | .obj fs, k => .ok (fs.any (fun p => p.1 == k))
  | .arr xs, k => .ok (xs.any (fun x => match x with | .str s => s == k | _ => false))
  | _, _ => .error .typeErr

/-- Python `d.get(k, default)`: only defined on dicts. -/
def Json.getD (j : Json) (k : String) (d : Json) : Except Err Json :=
  match j with
  | .obj fs =>
    match fs.find? (fun p => p.1 == k) with
    | some p => .ok p.2
    | none => .ok d
  | _ => .error .typeErr

/-- Python `xs[i]` for an integer index on a JSON list. -/
def Json.index : Json → Nat → Except Err Json
  | .arr xs, i =>
    match xs.get? i with
    | some x => .ok x
    | none => .error .index
  | _, _ => .error .typeErr

/-- The JSON value, required to be a string (the source's dataclass fields
are typed `str`; the embedding checks the runtime type). -/
def Json.asString : Json → Except Err String
  | .str s => .ok s
  | _ => .error .typeErr

/-- The JSON value, required to be an integer. -/
def Json.asInt : Json → Except Err Int
  | .num n => .ok n
  | _ => .error .typeErr

/-- The JSON value, required to be a list. -/
def Json.asArr : Json → Except Err (List Json)
  | .arr xs => .ok xs
  | _ => .error .typeErr

/-- Python `j == "lit"` for a JSON value against a string literal: true
exactly when the value is that string. -/
def Json.isStrEq (j : Json) (s : String) : Bool :=
  match j with
  | .str v => v == s
  | _ => false

/-- An HTTP response: a status code and a JSON body. -/
structure Response where
  status : Nat
  body : Json

/-- The remote GitHub API, as a pure function from requests to responses.
`get url params` answers the resource-style GET requests (`requests.get`),
`post url query` answers the GraphQL POST (`requests.post`). -/
structure World where
  get : String → Option (List (String × String)) → Response
  post : String → String → Response

/-- `Authorization` dataclass. -/
structure Authorization where
  token : String
  deriving DecidableEq

/-- `GitHubConfig` dataclass. -/
structure GitHubConfig where
  api_url : String
  authorization : Authorization
  deriving DecidableEq

/-- `Commit` dataclass; `datetime` is the normalized ISO-8601 string. -/
structure Commit where
  sha : String
  datetime : String
  message : String
  author : String
  deriving DecidableEq

/-- `Tag` dataclass. -/
structure Tag where
  name : String
  commit : Commit
  deriving DecidableEq

/-- `PullRequest` dataclass. -/
structure PullRequest where
  number : Int
  title : String
  author : String
  deriving DecidableEq

/-- `GithubAPI` dataclass. -/
structure GithubAPI where
  config : GitHubConfig
  owner : String
  repo : String
  deriving DecidableEq

/-- Replacement of every occurrence of the character `Z` by `+00:00`,
character by character (the pattern of the source's `.replace("Z", "+00:00")`
is a single character, so Python's left-to-right replace is exactly this). -/
def replaceZ : List Char → List Char
  | [] => []
  | c :: cs => (if c = 'Z' then "+00:00".data else [c]) ++ replaceZ cs

/-- Two leading decimal digits and their value. -/
def twoDigits : List Char → Option (Nat × List Char)
  | a :: b :: rest =>
    if a.isDigit && b.isDigit then some ((a.toNat - 48) * 10 + (b.toNat - 48), rest)
    else none
  | _ => none

/-- Four leading decimal digits and their value. -/
def fourDigits : List Char → Option (Nat × List Char)
  | a :: b :: c :: d :: rest =>
    if a.isDigit && b.isDigit && c.isDigit && d.isDigit then
      some ((((a.toNat - 48) * 10 + (b.toNat - 48)) * 10 + (c.toNat - 48)) * 10 +
        (d.toNat - 48), rest)
    else none
  | _ => none

/-- Gregorian leap year. -/
def isLeapYear (y : Nat) : Bool :=
  (y % 4 == 0 && y % 100 != 0) || y % 400 == 0

/-- Days in a month of a year. -/
def daysInMonth (y mo : Nat) : Nat :=
  if mo == 2 then (if isLeapYear y then 29 else 28)
  else if mo == 4 || mo == 6 || mo == 9 || mo == 11 then 30
  else 31

/-- The time grammar of `datetime.fromisoformat`:
`HH[:MM[:SS[.fff[fff]]]]`. -/
def isTimeChars (cs : List Char) : Bool :=
  match twoDigits cs with
  | none => false
  | some (h, rest) =>
    h < 24 &&
    (match rest with
     | [] => true
     | ':' :: r2 =>
       match twoDigits r2 with
       | none => false
       | some (mi, r3) =>
         mi < 60 &&
         (match r3 with
          | [] => true
          | ':' :: r4 =>
            match twoDigits r4 with
            | none => false
            | some (s, r5) =>
              s < 60 &&
              (match r5 with
               | [] => true
               | '.' :: ds => (ds.length == 3 || ds.length == 6) && ds.all Char.isDigit
               | _ => false)
          | _ => false)
     | _ => false)

/-- The UTC-offset grammar of `datetime.fromisoformat` (after the sign):
`HH:MM[:SS[.ffffff]]`. -/
def isOffsetChars (cs : List Char) : Bool :=
  match twoDigits cs with
  | some (h, ':' :: r1) =>
    h < 24 &&
    (match twoDigits r1 with
     | some (mi, r2) =>
       mi < 60 &&
       (match r2 with
        | [] => true
        | ':' :: r3 =>
          match twoDigits r3 with
          | some (s, r4) =>
            s < 60 &&
            (match r4 with
             | [] => true
             | '.' :: ds => ds.length == 6 && ds.all Char.isDigit
             | _ => false)
          | none => false
        | _ => false)
     | none => false)
  | _ => false

/-- The strings accepted by `datetime.fromisoformat` (Python's stdlib, which
the source calls; modelled from its documented grammar
`YYYY-MM-DD[*HH[:MM[:SS[.fff[fff]]]][+HH:MM[:SS[.ffffff]]]]`): a calendar
date, optionally one separator character and a time, optionally a signed
UTC offset. Every other string raises `ValueError`. -/
def isIsoDatetime (cs : List Char) : Bool :=
  match fourDigits cs with
  | some (y, '-' :: r1) =>
    (1 ≤ y) &&
    (match twoDigits r1 with
     | some (mo, '-' :: r2) =>
       (1 ≤ mo && mo ≤ 12) &&
       (match twoDigits r2 with
        | some (d, rest) =>
          (1 ≤ d && d ≤ daysInMonth y mo) &&
          (match rest with
           | [] => true
           | _sep :: timecs =>
             let front := timecs.takeWhile (fun c => !(c == '+' || c == '-'))
             let back := timecs.dropWhile (fun c => !(c == '+' || c == '-'))
             isTimeChars front &&
             (match back with
              | [] => true
              | _sign :: off => isOffsetChars off))
        | none => false)
     | _ => false)
  | _ => false

/-- `parse_datetime_string`: the source computes
`datetime.fromisoformat(datetime_str.replace("Z", "+00:00"))`, which raises
`ValueError` when the normalized string is not an ISO-8601 datetime; on
success the embedding keeps the normalized string (whose `isoformat`
reproduces it). -/
def parse_datetime_string (datetime_str : String) : Except Err String :=
  if isIsoDatetime (replaceZ datetime_str.data) then .ok ⟨replaceZ datetime_str.data⟩
  else .error .valueErr

/-- `Commit.init_from_api`: in the source's evaluation order — the
`datetime_str` lookups first, then the `Commit(...)` keyword arguments left
to right: the `sha` lookup, the datetime parse (which can raise
`ValueError`), the `message` lookups, and the `author` lookups. -/
def Commit.init_from_api (commit_json : Json) : Except Err Commit :=
  Except.bind (commit_json.get "commit") fun c0 =>
  Except.bind (c0.get "author") fun ca =>
  Except.bind (ca.get "date") fun d0 =>
  Except.bind d0.asString fun datetime_str =>
  Except.bind (commit_json.get "sha") fun s0 =>
  Except.bind s0.asString fun sha =>
  Except.bind (parse_datetime_string datetime_str) fun datetime =>
  Except.bind (commit_json.get "commit") fun c1 =>
  Except.bind (c1.get "message") fun m0 =>
  Except.bind m0.asString fun message =>
  Except.bind (commit_json.get "author") fun a0 =>
  Except.bind (a0.get "login") fun l0 =>
  Except.bind l0.asString fun author =>
  .ok ⟨sha, datetime, message, author⟩

/-- `GithubAPI.repo_url`. -/
def GithubAPI.repo_url (api : GithubAPI) : String :=
  api.config.api_url ++ "/repos/" ++ api.owner ++ "/" ++ api.repo

/-- `GithubAPI.commits_url`. -/
def GithubAPI.commits_url (api : GithubAPI) : String :=
  api.repo_url ++ "/commits"

/-- `GithubAPI.tags_url`. -/
def GithubAPI.tags_url (api : GithubAPI) : String :=
  api.repo_url ++ "/tags"

/-- `GithubAPI.get_commit_url`. -/
def GithubAPI.get_commit_url (api : GithubAPI) (sha : String) : String :=
  api.commits_url ++ "/" ++ sha

/-- `GithubAPI.tag_ref_url`. -/
def GithubAPI.tag_ref_url (api : GithubAPI) (tag : String) : String :=
  api.repo_url ++ "/git/refs/tags/" ++ tag

/-- `GithubAPI.compare_commits_url`. -/
def GithubAPI.compare_commits_url (api : GithubAPI) (first_commit last_commit : Commit) : String :=
  api.repo_url ++ "/compare/" ++ first_commit.sha ++ "..." ++ last_commit.sha

/-- `GithubAPI.api_query`: GET; non-200 raises `GitHubError` with the status
and the request URL in the message. -/
def GithubAPI.api_query (api : GithubAPI) (w : World) (url : String)
    (params : Option (List (String × String))) : Except Err Json :=
  let r := w.get url params
  if r.status == 200 then .ok r.body
  else .error (.github ("Query failed to run by returning code of " ++ toString r.status ++ "\n\n" ++ url))

/-- `GithubAPI.graphql_query`: POST to `{api_url}/graphql`; non-200 raises
`GitHubError` with the status and the QUERY TEXT (not the URL) in the
message. -/
def GithubAPI.graphql_query (api : GithubAPI) (w : World) (query : String) : Except Err Json :=
  let r := w.post (api.config.api_url ++ "/graphql") query
  if r.status == 200 then .ok r.body
  else .error (.github ("Query failed to run by returning code of " ++ toString r.status ++ "\n\n" ++ query))

/-- The `while` condition of `get_tag`:
`"object" not in tag_json or tag_json["object"]["type"] != "commit"`
(short-circuiting `or`; the second disjunct can itself raise). -/
def tagLoopCond (tag_json : Json) : Except Err Bool :=
  Except.bind (tag_json.hasKey "object") fun mem =>
  if mem then
    Except.bind (tag_json.get "object") fun obj =>
    Except.bind (obj.get "type") fun ty =>
    .ok (!(ty.isStrEq "commit"))
  else
    .ok true

/-- The `while` loop of `get_tag`, with explicit fuel (one unit per
iteration); running out of fuel yields `Err.fuel`, marking divergence. Each
iteration re-queries `tag_url`, and when the returned object has type
`"tag"` redirects `tag_url` to that object's own `url`. -/
def whileTag (api : GithubAPI) (w : World) : Nat → String → Json → Except Err Json
  | 0, _, tag_json =>
    Except.bind (tagLoopCond tag_json) fun c =>
    if c then .error .fuel else .ok tag_json
  | fuel+1, tag_url, tag_json =>
    Except.bind (tagLoopCond tag_json) fun c =>
    if c then
      Except.bind (api.api_query w tag_url none) fun tj =>
      Except.bind (tj.get "object") fun obj =>
      Except.bind (obj.get "type") fun ty =>
      if ty.isStrEq "tag" then
        Except.bind (obj.get "url") fun u0 =>
        Except.bind u0.asString fun u =>
        whileTag api w fuel u tj
      else
        whileTag api w fuel tag_url tj
    else .ok tag_json

/-- `GithubAPI.get_tag`: resolve a tag ref, dereferencing annotated tag
objects in the `while` loop, then fetch the commit at the resulting sha. -/
def GithubAPI.get_tag (api : GithubAPI) (w : World) (fuel : Nat) (name : String) :
    Except Err Tag :=
  Except.bind (whileTag api w fuel (api.tag_ref_url name) (.obj [])) fun tag_json =>
  Except.bind (tag_json.get "object") fun obj =>
  Except.bind (obj.get "sha") fun sh0 =>
  Except.bind sh0.asString fun sha =>
  Except.bind (api.api_query w (api.get_commit_url sha) none) fun commit_json =>
  Except.bind (Commit.init_from_api commit_json) fun c =>
  .ok ⟨name, c⟩

/-- `GithubAPI.get_last_commit`: first entry of the branch's commit list. -/
def GithubAPI.get_last_commit (api : GithubAPI) (w : World) (branch : String) :
    Except Err Commit :=
  Except.bind (api.api_query w api.commits_url (some [("sha", branch)])) fun commits_json =>
  Except.bind (commits_json.index 0) fun first =>
  Commit.init_from_api first

/-- `GithubAPI.get_latest_tag`: `tags_json[0]["name"]` (an `IndexError` on an
empty tag list), then `get_tag` on that name. -/
def GithubAPI.get_latest_tag (api : GithubAPI) (w : World) (fuel : Nat) :
    Except Err Tag :=
  Except.bind (api.api_query w api.tags_url none) fun tags_json =>
  Except.bind (tags_json.index 0) fun t0 =>
  Except.bind (t0.get "name") fun n0 =>
  Except.bind n0.asString fun name =>
  api.get_tag w fuel name

/-- Python `repr` of a `Commit` dataclass, as interpolated by f-strings. The
datetime is shown in its ISO form (Python shows a `datetime.datetime(...)`
constructor call); the exact rendering is opaque to the rest of the program,
which never parses these strings. -/
def Commit.pyRepr (c : Commit) : String :=
  "Commit(sha=\x27" ++ c.sha ++ "\x27, datetime=" ++ c.datetime ++ ", message=\x27" ++
    c.message ++ "\x27, author=\x27" ++ c.author ++ "\x27)"

/-- Python `repr` of a `Tag` dataclass, as interpolated by f-strings. -/
def Tag.pyRepr (t : Tag) : String :=
  "Tag(name=\x27" ++ t.name ++ "\x27, commit=" ++ t.commit.pyRepr ++ ")"

/-- `GithubAPI.get_commits_between`: compare endpoint; a missing `"commits"`
container raises `GitHubError` (the commits interpolated via their repr). -/
def GithubAPI.get_commits_between (api : GithubAPI) (w : World)
    (first_commit last_commit : Commit) : Except Err (List Commit) :=
  Except.bind (api.api_query w (api.compare_commits_url first_commit last_commit) none)
    fun commits_json =>
  Except.bind (commits_json.hasKey "commits") fun mem =>
  if mem then
    Except.bind (commits_json.get "commits") fun cs0 =>
    Except.bind cs0.asArr fun cs =>
    cs.mapM Commit.init_from_api
  else
    .error (.github ("Commits not found between " ++ first_commit.pyRepr ++ " and " ++
      last_commit.pyRepr ++ "."))

/-- The search string `repo:{owner}/{repo} is:pr is:merged created:{from}..{to}`
built by `get_prs_merged_between_commits` (dates via `datetime.isoformat`,
the identity on the embedded normalized strings). -/
def merged_pr_search_query (api : GithubAPI) (first_commit last_commit : Commit) : String :=
  "repo:" ++ api.owner ++ "/" ++ api.repo ++ " is:pr is:merged created:" ++
    first_commit.datetime ++ ".." ++ last_commit.datetime

/-- The GraphQL document: the source's triple-quoted template with `%s`
replaced by the search string (braces written with escapes). -/
def graphql_search_string (q : String) : String :=
  "\n            \x7b\n              search(first: 100, query: \"" ++ q ++
    "\", type: ISSUE) \x7b\n                nodes \x7b\n                  ... on PullRequest \x7b\n                    title\n                    number\n                    author \x7b login \x7d\n                  \x7d\n                \x7d\n              \x7d\n            \x7d\n            "

/-- One step of the list comprehension in `get_prs_merged_between_commits`:
`PullRequest(number=pr["number"], title=pr["title"], author=pr["author"]["login"])`. -/
def pr_from_node (pr : Json) : Except Err PullRequest :=
  Except.bind (pr.get "number") fun n0 =>
  Except.bind n0.asInt fun number =>
  Except.bind (pr.get "title") fun t0 =>
  Except.bind t0.asString fun title =>
  Except.bind (pr.get "author") fun a0 =>
  Except.bind (a0.get "login") fun l0 =>
  Except.bind l0.asString fun author =>
  .ok ⟨number, title, author⟩

/-- The un-sorted stage of `get_prs_merged_between_commits`: issue the GraphQL
query and parse `pr_json_list["data"]["search"].get("nodes", [])` into
`PullRequest`s, in response order. -/
def prs_from_search (api : GithubAPI) (w : World) (first_commit last_commit : Commit) :
    Except Err (List PullRequest) :=
  Except.bind
    (api.graphql_query w (graphql_search_string (merged_pr_search_query api first_commit last_commit)))
    fun pr_json_list =>
  Except.bind (pr_json_list.get "data") fun d0 =>
  Except.bind (d0.get "search") fun s0 =>
  Except.bind (s0.getD "nodes" (.arr [])) fun nodes0 =>
  Except.bind nodes0.asArr fun nodes =>
  nodes.mapM pr_from_node

/-- The comparator of `sorted(..., key=attrgetter("number"))`. -/
def prOrder (a b : PullRequest) : Prop := a.number ≤ b.number

instance : DecidableRel prOrder := fun a b => Int.decLe a.number b.number

instance : IsTotal PullRequest prOrder := ⟨fun a b => Int.le_total a.number b.number⟩

instance : IsTrans PullRequest prOrder := ⟨fun _ _ _ => Int.le_trans⟩

/-- `GithubAPI.get_prs_merged_between_commits`: the parsed search results,
stably sorted ascending by PR number (Python's `sorted` is a stable sort; the
embedding uses a stable insertion sort). -/
def GithubAPI.get_prs_merged_between_commits (api : GithubAPI) (w : World)
    (first_commit last_commit : Commit) : Except Err (List PullRequest) :=
  Except.bind (prs_from_search api w first_commit last_commit) fun prs =>
  .ok (List.insertionSort prOrder prs)

/-- The runtime type of the source's `previous_tag_name` variable in
`fetch_changes`: declared `Optional[str]`, but re-assigned to the `Tag`
returned by `get_latest_tag()` when the caller passed `None`. -/
inductive StrOrTag where
  | s (v : String)
  | t (v : Tag)

/-- Python string interpolation of that variable (an f-string coerces a
dataclass through `str`, i.e. its repr). -/
def pyFStr : StrOrTag → String
  | .s v => v
  | .t v => v.pyRepr

/-- `fetch_changes`: when `previous_tag_name` is `None` the source assigns it
the WHOLE `Tag` returned by `get_latest_tag()` and then passes it to
`get_tag`, whose `tag_ref_url` f-string interpolates the dataclass repr into
the URL. -/
def fetch_changes (api : GithubAPI) (w : World) (fuel : Nat)
    (previous_tag_name : Option String) (current_tag_name : Option String)
    (branch : String) : Except Err (List PullRequest) :=
  Except.bind
    (match previous_tag_name with
     | none => Except.bind (api.get_latest_tag w fuel) fun t => .ok (StrOrTag.t t)
     | some s => .ok (StrOrTag.s s))
    fun prev_name =>
  Except.bind (api.get_tag w fuel (pyFStr prev_name)) fun previous_tag =>
  Except.bind
    (match current_tag_name with
     | some s => Except.bind (api.get_tag w fuel s) fun ct => .ok ct.commit
     | none => api.get_last_commit w branch)
    fun current_commit =>
  api.get_prs_merged_between_commits w previous_tag.commit current_commit

/-- `format_changes`: the source's loop appending one bullet line and one
link-target line per PR, then concatenating bullet list and link list. -/
def format_changes (base_url : String) (owner : String) (repo : String)
    (prs : List PullRequest) : List String :=
  let lists := prs.foldl
    (fun (acc : List String × List String) pr =>
      (acc.1 ++ ["- `#" ++ toString pr.number ++ "`_ " ++ pr.title ++ " (@" ++ pr.author ++ ")"],
       acc.2 ++ [".. _#" ++ toString pr.number ++ ": " ++ base_url ++ "/" ++ owner ++ "/" ++
         repo ++ "/pull/" ++ toString pr.number]))
    ([], [])
  lists.1 ++ lists.2

/-- Whether an error is the source's own `GitHubError` (the only error class
the code defines; the spec's defined error kinds all map onto it). -/
def Err.isGitHubError : Err → Bool
  | .github _ => true
  | _ => false

/-- Substring test on character lists (used to state what an error message
carries). -/
def charsStartWith : List Char → List Char → Bool
  | _, [] => true
  | [], _ :: _ => false
  | a :: as, b :: bs => a == b && charsStartWith as bs

/-- Substring containment on character lists. -/
def charsContain : List Char → List Char → Bool
  | [], pat => charsStartWith [] pat
  | a :: as, pat => charsStartWith (a :: as) pat || charsContain as pat

/-- `strContains s pat`: `pat` occurs contiguously in `s`. -/
def strContains (s pat : String) : Bool :=
  charsContain s.data pat.data

/-! ### Helper lemmas -/

/-- A concrete commit body of the shape the commit endpoints answer. -/
def commitJson (sha date msg login : String) : Json :=
  .obj [("sha", .str sha),
        ("commit", .obj [("author", .obj [("date", .str date)]), ("message", .str msg)]),
        ("author", .obj [("login", .str login)])]

/-- Inversion for a successful `Except.bind`. -/
theorem bind_eq_ok {α β : Type} {x : Except Err α} {f : α → Except Err β} {b : β} :
    Except.bind x f = Except.ok b ↔ ∃ a, x = Except.ok a ∧ f a = Except.ok b := by
  cases x <;> simp [Except.bind]

/-- Associativity of `Except.bind`. -/
theorem exBind_assoc {α β γ : Type} (x : Except Err α) (f : α → Except Err β)
    (g : β → Except Err γ) :
    Except.bind (Except.bind x f) g = Except.bind x (fun a => Except.bind (f a) g) := by
  cases x <;> rfl

/-- The only error the datetime parse can raise is `ValueError`. -/
theorem parse_error_value (s : String) (e : Err)
    (h : parse_datetime_string s = Except.error e) : e = Err.valueErr := by
  unfold parse_datetime_string at h
  split at h
  · simp at h
  · injection h with h2
    exact h2.symm

/-- The `while` loop returns its current `tag_json` at any remaining fuel once
the loop condition is false. -/
theorem whileTag_exit (api : GithubAPI) (w : World) (k : Nat) (url : String) (tj : Json)
    (h : tagLoopCond tj = .ok false) : whileTag api w k url tj = .ok tj := by
  cases k <;> simp [whileTag, h, Except.bind]

/-- Generalized accumulator form of the two-list loop in `format_changes`. -/
theorem foldl_two_append {α : Type} (f g : α → String) :
    ∀ (l : List α) (a c : List String),
      l.foldl (fun acc x => (acc.1 ++ [f x], acc.2 ++ [g x])) (a, c) =
        (a ++ l.map f, c ++ l.map g) := by
  intro l
  induction l with
  | nil => intro a c; simp
  | cons x xs ih => intro a c; simp [ih]

/-- The ref body answering with an annotated-tag object of identity `aSha`
that points at `next`. -/
def tagRefBody (aSha next : String) : Json :=
  .obj [("object", .obj [("type", .str "tag"), ("sha", .str aSha), ("url", .str next)])]

/-- The ref body answering with a commit object of sha `cSha`. -/
def commitRefBody (cSha : String) : Json :=
  .obj [("object", .obj [("type", .str "commit"), ("sha", .str cSha)])]

/-- The world serves, starting at `url`, a chain of annotated-tag objects
(each entry an identity sha and the next URL) ending in a commit object with
sha `cSha`. -/
def tagChainWorld (w : World) : String → List (String × String) → String → Prop
  | url, [], cSha => w.get url none = ⟨200, commitRefBody cSha⟩
  | url, p :: rest, cSha =>
      w.get url none = ⟨200, tagRefBody p.1 p.2⟩ ∧ tagChainWorld w p.2 rest cSha

/-- The dereference loop resolves any annotated-tag chain ending in a commit
object, given one unit of fuel per lookup. -/
theorem whileTag_chain (api : GithubAPI) (w : World) (cSha : String) :
    ∀ (chain : List (String × String)) (fuel : Nat) (url : String) (tj : Json),
      tagLoopCond tj = .ok true →
      chain.length + 1 ≤ fuel →
      tagChainWorld w url chain cSha →
      whileTag api w fuel url tj = .ok (commitRefBody cSha) := by
  intro chain
  induction chain with
  | nil =>
    intro fuel url tj hcond hfuel hw
    simp only [tagChainWorld] at hw
    obtain ⟨k, rfl⟩ : ∃ k, fuel = k + 1 := ⟨fuel - 1, by omega⟩
    rw [whileTag]
    simp only [hcond, GithubAPI.api_query, hw, Except.bind, if_true]
    have : whileTag api w k url (commitRefBody cSha) = .ok (commitRefBody cSha) :=
      whileTag_exit api w k url _ rfl
    simpa [commitRefBody, Json.get, Json.isStrEq, Except.bind] using this
  | cons p rest ih =>
    intro fuel url tj hcond hfuel hw
    simp only [tagChainWorld] at hw
    obtain ⟨hw1, hw2⟩ := hw
    obtain ⟨k, rfl⟩ : ∃ k, fuel = k + 1 := ⟨fuel - 1, by omega⟩
    rw [whileTag]
    simp only [hcond, GithubAPI.api_query, hw1, Except.bind, if_true]
    have hrec : whileTag api w k p.2 (tagRefBody p.1 p.2) = .ok (commitRefBody cSha) :=
      ih k p.2 (tagRefBody p.1 p.2) rfl (by simp at hfuel; omega) hw2
    simpa [tagRefBody, Json.get, Json.isStrEq, Json.asString, Except.bind] using hrec

/-- Resolution of a tag ref through a chain of annotated-tag objects ending
in a commit object: with the commit endpoint answering a well-formed commit
body, `get_tag` reduces to the datetime parse of the commit's date — the
underlying commit on a parseable date, the parse's `ValueError` otherwise —
for every fuel budget of at least one unit per lookup. -/
theorem get_tag_chain (api : GithubAPI) (w : World) (fuel : Nat) (name : String)
    (chain : List (String × String)) (cSha date msg login : String)
    (hfuel : chain.length + 1 ≤ fuel)
    (hchain : tagChainWorld w (api.tag_ref_url name) chain cSha)
    (h3 : w.get (api.get_commit_url cSha) none = ⟨200, commitJson cSha date msg login⟩) :
    api.get_tag w fuel name =
      Except.bind (parse_datetime_string date) fun pd =>
        Except.ok ⟨name, ⟨cSha, pd, msg, login⟩⟩ := by
  have hloop := whileTag_chain api w cSha chain fuel (api.tag_ref_url name) (Json.obj [])
    rfl hfuel hchain
  unfold GithubAPI.get_tag
  rw [hloop]
  simp [Except.bind, commitRefBody, Json.get, Json.asString, GithubAPI.api_query, h3,
    Commit.init_from_api, commitJson, exBind_assoc]
  cases parse_datetime_string date <;> rfl

/-! ### Concrete fixtures -/

/-- A fixed API client: api base `"a"`, owner `"o"`, repo `"r"` (kept short so
concrete evaluations stay small). -/
def api0 : GithubAPI := ⟨⟨"a", ⟨"t"⟩⟩, "o", "r"⟩

/-- A January commit. -/
def cJan : Commit := ⟨"s1", "2023-01-01T00:00:00+00:00", "m1", "u1"⟩

/-- A February commit. -/
def cFeb : Commit := ⟨"s2", "2023-02-01T00:00:00+00:00", "m2", "u2"⟩

/-- A pull-request node as returned inside the GraphQL search response. -/
def prNode (number : Int) (title login : String) : Json :=
  .obj [("title", .str title), ("number", .num number), ("author", .obj [("login", .str login)])]

/-- A well-formed GraphQL search response body with the given nodes. -/
def searchBody (nodes : List Json) : Json :=
  .obj [("data", .obj [("search", .obj [("nodes", .arr nodes)])])]

/-- The default response of the fixture worlds for unknown requests. -/
def notFound : Response := ⟨404, .obj []⟩

/-! ### Claim C9 -/

/-- The two-list loop of `format_changes`, with a generalized accumulator. -/
theorem format_loop_eq (base_url owner repo : String) :
    ∀ (prs : List PullRequest) (a c : List String),
      prs.foldl
        (fun (acc : List String × List String) pr =>
          (acc.1 ++ ["- `#" ++ toString pr.number ++ "`_ " ++ pr.title ++ " (@" ++ pr.author ++ ")"],
           acc.2 ++ [".. _#" ++ toString pr.number ++ ": " ++ base_url ++ "/" ++ owner ++ "/" ++
             repo ++ "/pull/" ++ toString pr.number]))
        (a, c) =
      (a ++ prs.map (fun pr =>
          "- `#" ++ toString pr.number ++ "`_ " ++ pr.title ++ " (@" ++ pr.author ++ ")"),
       c ++ prs.map (fun pr =>
          ".. _#" ++ toString pr.number ++ ": " ++ base_url ++ "/" ++ owner ++ "/" ++
            repo ++ "/pull/" ++ toString pr.number)) := by
  intro prs
  induction prs with
  | nil => intro a c; simp
  | cons x xs ih => intro a c; simp [ih]

/-- Claim C9: for every list of PullRequests, the formatter returns exactly
one bullet line per entry in the input's relative order, of the form
``- `#N`_ Title (@author)``, followed by exactly one link-target line per
entry in the same relative order, of the form
`.. _#N: <base_url>/<owner>/<repo>/pull/N`; for the empty input list the
output is empty. -/
theorem C9_format (base_url owner repo : String) (prs : List PullRequest) :
    format_changes base_url owner repo prs =
      prs.map (fun pr =>
        "- `#" ++ toString pr.number ++ "`_ " ++ pr.title ++ " (@" ++ pr.author ++ ")") ++
      prs.map (fun pr =>
        ".. _#" ++ toString pr.number ++ ": " ++ base_url ++ "/" ++ owner ++ "/" ++
          repo ++ "/pull/" ++ toString pr.number) ∧
    format_changes base_url owner repo [] = [] := by
  constructor
  · unfold format_changes
    rw [format_loop_eq]
    simp
  · rfl

/-! ### Claim C3 -/

/-- Claim C3: for every raw search response and every ordering of its entries,
a successfully returned list of `get_prs_merged_between_commits` is sorted
ascending by PR number. -/
theorem C3_sorted (api : GithubAPI) (w : World) (fc lc : Commit) (l : List PullRequest)
    (h : api.get_prs_merged_between_commits w fc lc = Except.ok l) :
    List.Pairwise (fun a b : PullRequest => a.number ≤ b.number) l := by
  unfold GithubAPI.get_prs_merged_between_commits at h
  rw [bind_eq_ok] at h
  obtain ⟨prs, -, h2⟩ := h
  have h3 : List.insertionSort prOrder prs = l := by simpa using h2
  rw [← h3]
  exact List.sorted_insertionSort prOrder prs

/-- A world whose search response lists PR 12 before PR 5. -/
def worldC3 : World :=
  ⟨fun _ _ => notFound,
   fun _ _ => ⟨200, searchBody [prNode 12 "Fix bug" "alice", prNode 5 "Add feature" "bob"]⟩⟩

/-- PR number 5 of the C3 fixture. -/
def prC3a : PullRequest := ⟨5, "Add feature", "bob"⟩

/-- PR number 12 of the C3 fixture. -/
def prC3b : PullRequest := ⟨12, "Fix bug", "alice"⟩

/-- Witness for C3: the out-of-order response is returned sorted. -/
theorem C3_sorted_witness :
    api0.get_prs_merged_between_commits worldC3 cJan cFeb = Except.ok [prC3a, prC3b] ∧
    List.Pairwise (fun a b : PullRequest => a.number ≤ b.number) [prC3a, prC3b] :=
  ⟨rfl, C3_sorted api0 worldC3 cJan cFeb [prC3a, prC3b] rfl⟩

/-! ### Claim C2 -/

/-- The duplicated PR of the C2 fixture. -/
def prC2 : PullRequest := ⟨5, "A", "x"⟩

/-- A world whose search response contains the same PR number twice. -/
def worldC2 : World :=
  ⟨fun _ _ => notFound,
   fun _ _ => ⟨200, searchBody [prNode 5 "A" "x", prNode 5 "A" "x"]⟩⟩

/-- Claim C2 counterexample: when the raw search response repeats PR number 5,
`get_prs_merged_between_commits` returns TWO entries with number 5, so the
result is not deduplicated by number. -/
theorem C2_counterexample :
    api0.get_prs_merged_between_commits worldC2 cJan cFeb = Except.ok [prC2, prC2] ∧
    List.countP (fun p : PullRequest => p.number == 5) [prC2, prC2] = 2 :=
  ⟨rfl, rfl⟩

/-- Claim C2 amended: the code does not deduplicate; the returned list is a
permutation of the PullRequests parsed from the raw response, one entry per
occurrence, so every PR number keeps its multiplicity from the raw
response. -/
theorem C2_amended (api : GithubAPI) (w : World) (fc lc : Commit) (prs l : List PullRequest)
    (hraw : prs_from_search api w fc lc = Except.ok prs)
    (h : api.get_prs_merged_between_commits w fc lc = Except.ok l) :
    l.Perm prs ∧
    ∀ n : Int, l.countP (fun p => p.number == n) = prs.countP (fun p => p.number == n) := by
  unfold GithubAPI.get_prs_merged_between_commits at h
  rw [hraw] at h
  have h2 : List.insertionSort prOrder prs = l := by simpa [Except.bind] using h
  subst h2
  refine ⟨List.perm_insertionSort prOrder prs, fun n => ?_⟩
  exact (List.perm_insertionSort prOrder prs).countP_eq _

/-- Witness for the amended C2: both occurrences of PR 5 survive. -/
theorem C2_amended_witness :
    prs_from_search api0 worldC2 cJan cFeb = Except.ok [prC2, prC2] ∧
    List.Perm [prC2, prC2] [prC2, prC2] :=
  ⟨rfl, (C2_amended api0 worldC2 cJan cFeb [prC2, prC2] [prC2, prC2] rfl rfl).1⟩

/-! ### Claim C8 -/

/-- The PR of the C8 fixture. -/
def prC8 : PullRequest := ⟨7, "T", "z"⟩

/-- A world whose search response contains one PR (also for the query whose
two date endpoints coincide). -/
def worldC8 : World :=
  ⟨fun _ _ => notFound, fun _ _ => ⟨200, searchBody [prNode 7 "T" "z"]⟩⟩

/-- Claim C8 counterexample: with previous and current commit identical, the
code still issues the search query and returns its (non-empty) results, so
the result is not the empty list. -/
theorem C8_counterexample :
    api0.get_prs_merged_between_commits worldC8 cJan cJan = Except.ok [prC8] ∧
    (Except.ok [prC8] : Except Err (List PullRequest)) ≠ Except.ok [] :=
  ⟨rfl, by simp⟩

/-- Claim C8 amended: with previous and current commit identical, the code
issues an ordinary search whose date window has equal endpoints and returns
its sorted results without error — the empty list exactly when the response
carries no nodes. -/
theorem C8_amended (api : GithubAPI) (w : World) (c : Commit)
    (hresp : w.post (api.config.api_url ++ "/graphql")
        (graphql_search_string (merged_pr_search_query api c c)) = ⟨200, searchBody []⟩) :
    api.get_prs_merged_between_commits w c c = Except.ok [] := by
  simp only [GithubAPI.get_prs_merged_between_commits, prs_from_search,
    GithubAPI.graphql_query, hresp]
  rfl

/-- A world whose search response carries no nodes. -/
def worldC8e : World :=
  ⟨fun _ _ => notFound, fun _ _ => ⟨200, searchBody []⟩⟩

/-- Witness for the amended C8. -/
theorem C8_amended_witness :
    api0.get_prs_merged_between_commits worldC8e cJan cJan = Except.ok [] :=
  C8_amended api0 worldC8e cJan rfl

/-! ### Claim C4 -/

/-- Claim C4: when the tag reference resolves to an intermediate
annotated-tag object (a non-empty chain of tag objects, ending in a commit
object), `get_tag` follows each intermediate object's URL until the object of
type `"commit"` is reached, and the returned Tag carries the underlying
commit identified by the commit's sha — never any annotated object's
identity. -/
theorem C4_deref (api : GithubAPI) (w : World) (fuel : Nat) (name : String)
    (p : String × String) (rest : List (String × String)) (cSha date pd msg login : String)
    (hfuel : (p :: rest).length + 1 ≤ fuel)
    (hchain : tagChainWorld w (api.tag_ref_url name) (p :: rest) cSha)
    (h3 : w.get (api.get_commit_url cSha) none = ⟨200, commitJson cSha date msg login⟩)
    (hdate : parse_datetime_string date = Except.ok pd) :
    api.get_tag w fuel name = Except.ok ⟨name, ⟨cSha, pd, msg, login⟩⟩ ∧
    ∀ aSha ∈ (p :: rest).map Prod.fst, aSha ≠ cSha →
      (⟨cSha, pd, msg, login⟩ : Commit).sha ≠ aSha := by
  refine ⟨?_, fun _ _ hne h => hne h.symm⟩
  rw [get_tag_chain api w fuel name (p :: rest) cSha date msg login hfuel hchain h3, hdate]
  rfl

/-- A world resolving tag `v1` through one annotated-tag indirection: the ref
answers a tag object (sha `as`) pointing at `a/tagobj`, which answers a
commit object with sha `cs`. -/
def worldC4 : World :=
  ⟨fun url _ =>
    if url = api0.tag_ref_url "v1" then
      ⟨200, .obj [("object", .obj [("type", .str "tag"), ("sha", .str "as"), ("url", .str "a/tagobj")])]⟩
    else if url = "a/tagobj" then
      ⟨200, .obj [("object", .obj [("type", .str "commit"), ("sha", .str "cs")])]⟩
    else if url = api0.get_commit_url "cs" then
      ⟨200, commitJson "cs" "2023-01-01T00:00:00Z" "m" "bob"⟩
    else notFound,
   fun _ _ => notFound⟩

/-- Witness for C4: the resolved Tag carries commit `cs`, not the annotated
object's `as`. -/
theorem C4_deref_witness :
    api0.get_tag worldC4 2 "v1" =
      Except.ok ⟨"v1", ⟨"cs", "2023-01-01T00:00:00+00:00", "m", "bob"⟩⟩ ∧
    (⟨"cs", "2023-01-01T00:00:00+00:00", "m", "bob"⟩ : Commit).sha ≠ "as" :=
  ⟨(C4_deref api0 worldC4 2 "v1" ("as", "a/tagobj") [] "cs" "2023-01-01T00:00:00Z"
      "2023-01-01T00:00:00+00:00" "m" "bob" (by norm_num) ⟨rfl, rfl⟩ rfl rfl).1,
   (C4_deref api0 worldC4 2 "v1" ("as", "a/tagobj") [] "cs" "2023-01-01T00:00:00Z"
      "2023-01-01T00:00:00+00:00" "m" "bob" (by norm_num) ⟨rfl, rfl⟩ rfl rfl).2
     "as" (by simp) (by decide)⟩

/-! ### Claim C5 -/

/-- A world whose ref response has an object of type `"tree"`: the loop
condition stays true and the redirect branch is never taken, so the `while`
loop re-queries the same URL forever. -/
def worldC5 : World :=
  ⟨fun url _ =>
    if url = api0.tag_ref_url "v1" then
      ⟨200, .obj [("object", .obj [("type", .str "tree"), ("sha", .str "x")])]⟩
    else notFound,
   fun _ _ => notFound⟩

/-- The body served by `worldC5`. -/
def treeBodyC5 : Json := .obj [("object", .obj [("type", .str "tree"), ("sha", .str "x")])]

/-- One iteration of the loop in `worldC5` changes nothing. -/
theorem whileTagC5_step (k : Nat) :
    whileTag api0 worldC5 (k + 1) (api0.tag_ref_url "v1") treeBodyC5 =
      whileTag api0 worldC5 k (api0.tag_ref_url "v1") treeBodyC5 := rfl

/-- In `worldC5` the loop consumes every amount of fuel. -/
theorem whileTagC5_diverges : ∀ n : Nat,
    whileTag api0 worldC5 n (api0.tag_ref_url "v1") treeBodyC5 = Except.error Err.fuel := by
  intro n
  induction n with
  | zero => rfl
  | succ k ih => exact (whileTagC5_step k).trans ih

/-- In `worldC5`, `get_tag` runs out of any amount of fuel. -/
theorem getTagC5_diverges (fuel : Nat) :
    api0.get_tag worldC5 fuel "v1" = Except.error Err.fuel := by
  cases fuel with
  | zero => rfl
  | succ n =>
    unfold GithubAPI.get_tag
    rw [show whileTag api0 worldC5 (n + 1) (api0.tag_ref_url "v1") (Json.obj []) =
          whileTag api0 worldC5 n (api0.tag_ref_url "v1") treeBodyC5 from rfl,
        whileTagC5_diverges n]
    rfl

/-- Claim C5 counterexample: the dereference loop is NOT a bounded iteration
over all remote responses — in `worldC5` (type `"tree"` forever) no bound on
the number of lookups makes `get_tag` terminate: it exhausts every fuel. -/
theorem C5_counterexample :
    ¬ ∃ bound : Nat, ∀ fuel : Nat, bound ≤ fuel →
        api0.get_tag worldC5 fuel "v1" ≠ Except.error Err.fuel := by
  rintro ⟨bound, h⟩
  exact h bound le_rfl (getTagC5_diverges bound)

/-- Claim C5 amended: the loop terminates whenever the responses form a chain
of annotated-tag objects ending in a commit object, with one lookup per chain
entry plus one — so for every fuel budget of at least `chain.length + 1`. It
is not bounded for arbitrary responses (see the counterexample). -/
theorem C5_amended (api : GithubAPI) (w : World) (fuel : Nat) (name : String)
    (chain : List (String × String)) (cSha date msg login : String)
    (hfuel : chain.length + 1 ≤ fuel)
    (hchain : tagChainWorld w (api.tag_ref_url name) chain cSha)
    (h3 : w.get (api.get_commit_url cSha) none = ⟨200, commitJson cSha date msg login⟩) :
    api.get_tag w fuel name ≠ Except.error Err.fuel := by
  rw [get_tag_chain api w fuel name chain cSha date msg login hfuel hchain h3]
  cases hp : parse_datetime_string date with
  | ok pd => simp [Except.bind]
  | error e =>
    have he : e = Err.valueErr := parse_error_value date e hp
    subst he
    simp [Except.bind]

/-- Witness for the amended C5: with the one-indirection chain world and fuel
3 the loop terminates. -/
theorem C5_amended_witness :
    api0.get_tag worldC4 3 "v1" ≠ Except.error Err.fuel :=
  C5_amended api0 worldC4 3 "v1" [("as", "a/tagobj")] "cs" "2023-01-01T00:00:00Z" "m" "bob"
    (by norm_num) ⟨rfl, rfl⟩ rfl

/-! ### Claim C6 -/

/-- A world whose repository has no tags: the tag-list endpoint answers an
empty JSON array. -/
def worldC6 : World :=
  ⟨fun url _ => if url = api0.tags_url then ⟨200, .arr []⟩ else notFound,
   fun _ _ => notFound⟩

/-- Claim C6 counterexample: on an empty tag list `get_latest_tag` fails with
an index-out-of-range error (`tags_json[0]`), which is NOT the tool's defined
error kind (`GitHubError`), contradicting the claim that it fails with
`NotFoundError`. -/
theorem C6_counterexample :
    api0.get_latest_tag worldC6 5 = Except.error Err.index ∧
    Err.isGitHubError Err.index = false :=
  ⟨rfl, rfl⟩

/-- Claim C6 amended: if the previous tag name is omitted and the tag list is
empty, `get_latest_tag` fails with an unhandled index error (`IndexError`
from `tags_json[0]`), not with one of the tool's defined error kinds. -/
theorem C6_amended (api : GithubAPI) (w : World) (fuel : Nat)
    (h : w.get api.tags_url none = ⟨200, Json.arr []⟩) :
    api.get_latest_tag w fuel = Except.error Err.index := by
  simp only [GithubAPI.get_latest_tag, GithubAPI.api_query, h]
  rfl

/-- Witness for the amended C6. -/
theorem C6_amended_witness :
    api0.get_latest_tag worldC6 7 = Except.error Err.index :=
  C6_amended api0 worldC6 7 rfl

/-! ### Claim C7 -/

/-- A world answering every GET with 404 and every POST with 500. -/
def worldC7 : World := ⟨fun _ _ => notFound, fun _ _ => ⟨500, .obj []⟩⟩

/-- Claim C7 counterexample: on a non-200 GraphQL response the raised error's
message carries the status and the QUERY TEXT, but not the request URL
(`a/graphql`), contradicting the claim that every request's error carries
the request URL. -/
theorem C7_counterexample :
    api0.graphql_query worldC7 "q" =
      Except.error (Err.github ("Query failed to run by returning code of 500\n\nq")) ∧
    strContains "Query failed to run by returning code of 500\n\nq"
      (api0.config.api_url ++ "/graphql") = false :=
  ⟨rfl, rfl⟩

/-- Claim C7 amended: both request styles raise `GitHubError` exactly when
the response status is not 200; the resource-style error message carries the
response status and the request URL, while the GraphQL error message carries
the response status and the query text (not the URL). -/
theorem C7_amended (api : GithubAPI) (w : World) (url query : String)
    (params : Option (List (String × String))) :
    ((api.api_query w url params).isOk ↔ (w.get url params).status = 200) ∧
    ((w.get url params).status ≠ 200 →
      api.api_query w url params = Except.error (Err.github
        ("Query failed to run by returning code of " ++ toString (w.get url params).status ++
          "\n\n" ++ url))) ∧
    ((api.graphql_query w query).isOk ↔
      (w.post (api.config.api_url ++ "/graphql") query).status = 200) ∧
    ((w.post (api.config.api_url ++ "/graphql") query).status ≠ 200 →
      api.graphql_query w query = Except.error (Err.github
        ("Query failed to run by returning code of " ++
          toString (w.post (api.config.api_url ++ "/graphql") query).status ++
          "\n\n" ++ query))) := by
  refine ⟨?_, ?_, ?_, ?_⟩
  · by_cases h : (w.get url params).status = 200 <;>
      simp [GithubAPI.api_query, h, Except.isOk, Except.toBool]
  · intro h
    simp [GithubAPI.api_query, h]
  · by_cases h : (w.post (api.config.api_url ++ "/graphql") query).status = 200 <;>
      simp [GithubAPI.graphql_query, h, Except.isOk, Except.toBool]
  · intro h
    simp [GithubAPI.graphql_query, h]

/-- Witness for the amended C7: a 404 GET carries status and URL, a 500
GraphQL POST carries status and query text. -/
theorem C7_amended_witness :
    api0.api_query worldC7 "u" none =
      Except.error (Err.github ("Query failed to run by returning code of 404\n\nu")) ∧
    api0.graphql_query worldC7 "q2" =
      Except.error (Err.github ("Query failed to run by returning code of 500\n\nq2")) :=
  ⟨(C7_amended api0 worldC7 "u" "q2" none).2.1 (by decide),
   (C7_amended api0 worldC7 "u" "q2" none).2.2.2 (by decide)⟩

/-! ### Claim C1 -/

/-- A world where latest-tag resolution works: the tag list holds one tag
`v1`, whose ref points directly at commit `cs`; the search endpoint would
answer one PR. Requests to any other URL (in particular the URL built from a
dataclass repr) answer 404. -/
def worldC1 : World :=
  ⟨fun url _ =>
    if url = api0.tags_url then ⟨200, .arr [.obj [("name", .str "v1")]]⟩
    else if url = api0.tag_ref_url "v1" then
      ⟨200, .obj [("object", .obj [("type", .str "commit"), ("sha", .str "cs")])]⟩
    else if url = api0.get_commit_url "cs" then
      ⟨200, commitJson "cs" "2023-01-01T00:00:00Z" "m" "bob"⟩
    else notFound,
   fun _ _ => ⟨200, searchBody [prNode 1 "good" "bob"]⟩⟩

/-- The latest tag of `worldC1`. -/
def tagC1 : Tag := ⟨"v1", ⟨"cs", "2023-01-01T00:00:00+00:00", "m", "bob"⟩⟩

/-- Claim C1 (code bug): in `worldC1` the latest tag resolves to `tagC1`,
but `fetch_changes` with `previous_tag_name = None` does not use that tag's
commit — the source assigns the whole Tag object to `previous_tag_name` and
re-resolves it through `get_tag`, whose f-string builds the ref URL from the
dataclass repr, so the run aborts with `GitHubError` on that bogus URL and
never reaches the pull-request query. -/
theorem C1_code_bug :
    api0.get_latest_tag worldC1 2 = Except.ok tagC1 ∧
    fetch_changes api0 worldC1 2 none none "master" =
      Except.error (Err.github ("Query failed to run by returning code of 404\n\n" ++
        api0.tag_ref_url tagC1.pyRepr)) :=
  ⟨rfl, rfl⟩

/-! ### Claim C10 -/

/-- A commit body whose top-level author is JSON null (a commit whose author
has no linked forge account). -/
def commitJsonNullAuthor (sha date msg : String) : Json :=
  .obj [("sha", .str sha),
        ("commit", .obj [("author", .obj [("date", .str date)]), ("message", .str msg)]),
        ("author", .null)]

/-- A commit body with no top-level author key at all. -/
def commitJsonNoAuthor (sha date msg : String) : Json :=
  .obj [("sha", .str sha),
        ("commit", .obj [("author", .obj [("date", .str date)]), ("message", .str msg)])]

/-- `Bind.bind` on an `Except` error (the instance's bind, as produced by
`List.mapM`). -/
theorem bindExc_error {α β : Type} (e : Err) (f : α → Except Err β) :
    (Except.error e >>= f) = Except.error e := rfl

/-- `Bind.bind` on an `Except` success. -/
theorem bindExc_ok {α β : Type} (a : α) (f : α → Except Err β) :
    (Except.ok a >>= f) = f a := rfl

/-- On a commit body whose top-level author is null and whose date parses,
construction fails at the `author["login"]` subscript. -/
theorem init_null_author (sha date msg pd : String)
    (hdate : parse_datetime_string date = Except.ok pd) :
    Commit.init_from_api (commitJsonNullAuthor sha date msg) =
      Except.error (Err.lookup "login") := by
  simp [Commit.init_from_api, commitJsonNullAuthor, Json.get, Json.asString,
    Except.bind, hdate]

/-- Claim C10: `Commit.init_from_api` succeeds only when the response carries
`sha`, `commit.author.date`, `commit.message` and a non-null top-level
`author` with a `login`; and when the top-level author is null or absent (the
other fields well-formed, the date an ISO datetime — as for real commits
without a linked forge account), `init_from_api` — and with it `get_tag`,
`get_last_commit` and `get_commits_between` — fails with an unspecified
key-lookup error (`Err.lookup`), not one of the defined error kinds. -/
theorem C10_commit_author :
    (∀ (j : Json) (c : Commit), Commit.init_from_api j = Except.ok c →
      (j.get "sha").isOk ∧
      (Except.bind (j.get "commit")
        (fun x => Except.bind (x.get "author") (fun y => y.get "date"))).isOk ∧
      (Except.bind (j.get "commit") (fun x => x.get "message")).isOk ∧
      (∃ a, j.get "author" = Except.ok a ∧ a ≠ Json.null ∧ (a.get "login").isOk)) ∧
    (∀ sha date msg pd, parse_datetime_string date = Except.ok pd →
      Commit.init_from_api (commitJsonNullAuthor sha date msg) =
        Except.error (Err.lookup "login")) ∧
    (∀ sha date msg pd, parse_datetime_string date = Except.ok pd →
      Commit.init_from_api (commitJsonNoAuthor sha date msg) =
        Except.error (Err.lookup "author")) ∧
    (∀ (api : GithubAPI) (w : World) (fuel : Nat) (name cSha sha date msg pd : String),
      1 ≤ fuel →
      parse_datetime_string date = Except.ok pd →
      w.get (api.tag_ref_url name) none =
        ⟨200, .obj [("object", .obj [("type", .str "commit"), ("sha", .str cSha)])]⟩ →
      w.get (api.get_commit_url cSha) none = ⟨200, commitJsonNullAuthor sha date msg⟩ →
      api.get_tag w fuel name = Except.error (Err.lookup "login")) ∧
    (∀ (api : GithubAPI) (w : World) (branch sha date msg pd : String) (rest : List Json),
      parse_datetime_string date = Except.ok pd →
      w.get api.commits_url (some [("sha", branch)]) =
        ⟨200, .arr (commitJsonNullAuthor sha date msg :: rest)⟩ →
      api.get_last_commit w branch = Except.error (Err.lookup "login")) ∧
    (∀ (api : GithubAPI) (w : World) (fc lc : Commit) (sha date msg pd : String),
      parse_datetime_string date = Except.ok pd →
      w.get (api.compare_commits_url fc lc) none =
        ⟨200, .obj [("commits", .arr [commitJsonNullAuthor sha date msg])]⟩ →
      api.get_commits_between w fc lc = Except.error (Err.lookup "login")) := by
  refine ⟨?_, ?_, ?_, ?_, ?_, ?_⟩
  · intro j c h
    unfold Commit.init_from_api at h
    rw [bind_eq_ok] at h; obtain ⟨c0, hc0, h⟩ := h
    rw [bind_eq_ok] at h; obtain ⟨ca, hca, h⟩ := h
    rw [bind_eq_ok] at h; obtain ⟨d0, hd0, h⟩ := h
    rw [bind_eq_ok] at h; obtain ⟨ds, hds, h⟩ := h
    rw [bind_eq_ok] at h; obtain ⟨s0, hs0, h⟩ := h
    rw [bind_eq_ok] at h; obtain ⟨ss, hss, h⟩ := h
    rw [bind_eq_ok] at h; obtain ⟨dt, hdt, h⟩ := h
    rw [bind_eq_ok] at h; obtain ⟨c1, hc1, h⟩ := h
    rw [bind_eq_ok] at h; obtain ⟨m0, hm0, h⟩ := h
    rw [bind_eq_ok] at h; obtain ⟨ms, hms, h⟩ := h
    rw [bind_eq_ok] at h; obtain ⟨a0, ha0, h⟩ := h
    rw [bind_eq_ok] at h; obtain ⟨l0, hl0, h⟩ := h
    refine ⟨?_, ?_, ?_, a0, ha0, ?_, ?_⟩
    · rw [hs0]; rfl
    · rw [hc0]
      simp [Except.bind, hca, hd0, Except.isOk, Except.toBool]
    · rw [hc1]
      simp [Except.bind, hm0, Except.isOk, Except.toBool]
    · intro hnull
      subst hnull
      simp [Json.get] at hl0
    · rw [hl0]; rfl
  · intro sha date msg pd hdate
    exact init_null_author sha date msg pd hdate
  · intro sha date msg pd hdate
    simp [Commit.init_from_api, commitJsonNoAuthor, Json.get, Json.asString,
      Except.bind, hdate]
  · intro api w fuel name cSha sha date msg pd hfuel hdate h1 h2
    obtain ⟨k, rfl⟩ : ∃ k, fuel = k + 1 := ⟨fuel - 1, by omega⟩
    have s1 : whileTag api w (k + 1) (api.tag_ref_url name) (Json.obj []) =
        whileTag api w k (api.tag_ref_url name)
          (.obj [("object", .obj [("type", .str "commit"), ("sha", .str cSha)])]) := by
      rw [whileTag]
      simp [tagLoopCond, Json.hasKey, GithubAPI.api_query, h1, Json.get, Json.isStrEq,
        Json.asString, Except.bind]
    have hexit : whileTag api w k (api.tag_ref_url name)
        (.obj [("object", .obj [("type", .str "commit"), ("sha", .str cSha)])]) =
        .ok (.obj [("object", .obj [("type", .str "commit"), ("sha", .str cSha)])]) :=
      whileTag_exit api w k _ _ rfl
    unfold GithubAPI.get_tag
    rw [s1, hexit]
    simp [Except.bind, Json.get, Json.asString, GithubAPI.api_query, h2,
      Commit.init_from_api, commitJsonNullAuthor, hdate]
  · intro api w branch sha date msg pd rest hdate h
    have hinit := init_null_author sha date msg pd hdate
    simp [GithubAPI.get_last_commit, GithubAPI.api_query, h, Json.index, Except.bind, hinit]
  · intro api w fc lc sha date msg pd hdate h
    have hinit := init_null_author sha date msg pd hdate
    simp [GithubAPI.get_commits_between, GithubAPI.api_query, h, Json.hasKey, Json.get,
      Json.asArr, Except.bind, List.mapM, List.mapM.loop, bindExc_error, bindExc_ok, hinit]

/-- A world for the C10 witness: tag `v1` resolves directly to commit `cs`,
whose body (and the branch head's and the compare range's single commit)
has a null top-level author. -/
def worldC10 : World :=
  ⟨fun url _ =>
    if url = api0.tag_ref_url "v1" then
      ⟨200, .obj [("object", .obj [("type", .str "commit"), ("sha", .str "cs")])]⟩
    else if url = api0.get_commit_url "cs" then
      ⟨200, commitJsonNullAuthor "cs" "2023-01-01T00:00:00Z" "m"⟩
    else if url = api0.commits_url then
      ⟨200, .arr [commitJsonNullAuthor "cs" "2023-01-01T00:00:00Z" "m"]⟩
    else if url = api0.compare_commits_url cJan cFeb then
      ⟨200, .obj [("commits", .arr [commitJsonNullAuthor "cs" "2023-01-01T00:00:00Z" "m"])]⟩
    else notFound,
   fun _ _ => notFound⟩

/-- Witness for C10 at concrete bodies (with a genuine ISO date) and
`worldC10`. -/
theorem C10_commit_author_witness :
    ((Json.get (commitJson "s" "2023-01-01T00:00:00Z" "m" "u") "sha").isOk ∧
      (Except.bind (Json.get (commitJson "s" "2023-01-01T00:00:00Z" "m" "u") "commit")
        (fun x => Except.bind (Json.get x "author") (fun y => Json.get y "date"))).isOk ∧
      (Except.bind (Json.get (commitJson "s" "2023-01-01T00:00:00Z" "m" "u") "commit")
        (fun x => Json.get x "message")).isOk ∧
      (∃ a, Json.get (commitJson "s" "2023-01-01T00:00:00Z" "m" "u") "author" = Except.ok a ∧
        a ≠ Json.null ∧ (Json.get a "login").isOk)) ∧
    Commit.init_from_api (commitJsonNullAuthor "s" "2023-01-01T00:00:00Z" "m") =
      Except.error (Err.lookup "login") ∧
    Commit.init_from_api (commitJsonNoAuthor "s" "2023-01-01T00:00:00Z" "m") =
      Except.error (Err.lookup "author") ∧
    api0.get_tag worldC10 1 "v1" = Except.error (Err.lookup "login") ∧
    api0.get_last_commit worldC10 "master" = Except.error (Err.lookup "login") ∧
    api0.get_commits_between worldC10 cJan cFeb = Except.error (Err.lookup "login") :=
  ⟨C10_commit_author.1 (commitJson "s" "2023-01-01T00:00:00Z" "m" "u")
      ⟨"s", "2023-01-01T00:00:00+00:00", "m", "u"⟩ rfl,
   C10_commit_author.2.1 "s" "2023-01-01T00:00:00Z" "m" "2023-01-01T00:00:00+00:00" rfl,
   C10_commit_author.2.2.1 "s" "2023-01-01T00:00:00Z" "m" "2023-01-01T00:00:00+00:00" rfl,
   C10_commit_author.2.2.2.1 api0 worldC10 1 "v1" "cs" "cs" "2023-01-01T00:00:00Z" "m"
     "2023-01-01T00:00:00+00:00" (by norm_num) rfl rfl rfl,
   C10_commit_author.2.2.2.2.1 api0 worldC10 "master" "cs" "2023-01-01T00:00:00Z" "m"
     "2023-01-01T00:00:00+00:00" [] rfl rfl,
   C10_commit_author.2.2.2.2.2 api0 worldC10 cJan cFeb "cs" "2023-01-01T00:00:00Z" "m"
     "2023-01-01T00:00:00+00:00" rfl rfl⟩

end Changelog
